import Mathlib

set_option maxHeartbeats 1000000
set_option linter.unusedSectionVars false

namespace MonteCarlo

/-- Raw RGB image buffer together with width and height, modelling the
`(Vec<u8>, u32, u32)` triples returned by the plotting helpers. -/
abbrev PlotOut : Type := List Nat × Nat × Nat

/-- Abstract primitive operations of the numeric and random substrate:
`f64` transcendental functions and comparisons, the `StdRng` pseudorandom
generator of the `rand` crate (with state type `S`), the distribution
samplers of `rand_distr`, the summary statistics of `statrs`, and the two
chart rasterizers of `plotting.rs`.  The engine of `core_sim.rs` is
embedded parametrically in these operations: positive results below hold
for every interpretation of them, and refutations use only inputs on
which `f64` arithmetic is exact.  (`Poisson::new(..).unwrap()` failing
for a non-positive rate is behaviour of the external crate and is not
modelled; `samplePoisson` is total.) -/
structure Prim (R : Type) (S : Type) where
  exp : R → R
  sqrt : R → R
  ln : R → R
  powi : R → Nat → R
  ltb : R → R → Bool
  eqb : R → R → Bool
  fmax : R → R → R
  mkRng : Nat → S
  sampleStdNormal : S → R × S
  sampleNormal : R → R → S → R × S
  samplePoisson : R → S → Nat × S
  randomRange : Nat → S → Nat × S
  dataMean : List R → R
  dataStdDev : List R → R
  dataMedian : List R → R
  percentile : List R → Nat → R
  plotPricePaths : List (List R) → String → Option R → Except String PlotOut
  plotHistogram : List R → Nat → Except String PlotOut

/-- Modelled from the spec: the Slint-generated `SimParams` record is not
under `src/`; its fields are reconstructed from how `run_simulation`
reads them in `core_sim.rs`.  Each numeric field is read through an
`as f64` / `as usize` / `as u64` cast there, so scalars are presented at
their converted type: `R` for floats, `Nat` for counts and the
64-bit seed. -/
structure SimParams (R : Type) where
  initial_price : R
  mu : R
  sigma : R
  horizon : Nat
  num_paths : Nat
  dt : R
  seed : Nat
  use_antithetic : Bool
  model_type : String
  theta : R
  mu_long_term : R
  lambda : R
  mu_j : R
  sigma_j : R
  omega : R
  alpha : R
  beta : R

/-- `SimStats` of `core_sim.rs` (lines 39–52). -/
structure SimStats (R : Type) where
  model : String
  paths : Nat
  horizon : Nat
  mean : R
  std_dev : R
  median : R
  p5 : R
  p25 : R
  p75 : R
  p95 : R
  var95 : R
deriving DecidableEq

/-- Result of running a Rust function that may return `Result::Err` or
may panic (e.g. `Option::unwrap` on `None`). -/
inductive Outcome (ε : Type) (α : Type) where
  | panicked : Outcome ε α
  | error : ε → Outcome ε α
  | ok : α → Outcome ε α
deriving DecidableEq

/-- `true` precisely on `Outcome.ok`. -/
def Outcome.isOkB {ε α : Type} : Outcome ε α → Bool
  | .ok _ => true
  | _ => false

variable {R : Type} {S : Type}
variable [Add R] [Sub R] [Mul R] [Div R] [Neg R] [OfScientific R] [NatCast R]

/-- The per-step loop of `generate_gbm_path` (`core_sim.rs` lines
127–136): the prices pushed after the initial one, with the RNG state
threaded through the iterations. -/
def gbmLoop (P : Prim R S) (drift diffusion : R) (is_antithetic : Bool) :
    Nat → R → S → List R
  | 0, _, _ => []
  | steps + 1, current_price, rng =>
    let (z0, rng') := P.sampleStdNormal rng
    let z := if is_antithetic then -z0 else z0
    let next_price := current_price * P.exp (drift + diffusion * z)
    next_price :: gbmLoop P drift diffusion is_antithetic steps next_price rng'

/-- `generate_gbm_path` (`core_sim.rs` lines 117–138). -/
def generate_gbm_path (P : Prim R S) (init_price mu sigma : R) (steps : Nat)
    (dt : R) (is_antithetic : Bool) (rng : S) : List R :=
  let drift := (mu - (0.5 : R) * P.powi sigma 2) * dt
  let diffusion := sigma * P.sqrt dt
  init_price :: gbmLoop P drift diffusion is_antithetic steps init_price rng

/-- The per-step loop of `generate_bootstrap_path` (`core_sim.rs` lines
149–155).  The Rust `log_returns[idx]` with `idx` drawn from
`random_range(0..len)` is always in bounds; `getD` with default `0.0`
coincides with it there. -/
def bootstrapLoop (P : Prim R S) (log_returns : List R) :
    Nat → R → S → List R
  | 0, _, _ => []
  | steps + 1, current_price, rng =>
    let (idx, rng') := P.randomRange log_returns.length rng
    let log_return := log_returns.getD idx (0.0 : R)
    let next_price := current_price * P.exp log_return
    next_price :: bootstrapLoop P log_returns steps next_price rng'

/-- `generate_bootstrap_path` (`core_sim.rs` lines 140–157). -/
def generate_bootstrap_path (P : Prim R S) (init_price : R) (steps : Nat)
    (log_returns : List R) (rng : S) : List R :=
  if log_returns.isEmpty then
    List.replicate (steps + 1) init_price
  else
    init_price :: bootstrapLoop P log_returns steps init_price rng

/-- The per-step loop of `generate_mean_reversion_path` (`core_sim.rs`
lines 242–259). -/
def meanReversionLoop (P : Prim R S) (theta mu_long_term diffusion dt : R)
    (is_antithetic : Bool) : Nat → R → S → List R
  | 0, _, _ => []
  | steps + 1, current_price, rng =>
    let (z0, rng') := P.sampleStdNormal rng
    let z := if is_antithetic then -z0 else z0
    let drift := theta * (mu_long_term - current_price) * dt
    let shock := diffusion * z
    let next_price := current_price + drift + shock
    let next_price := P.fmax next_price (0.01 : R)
    next_price ::
      meanReversionLoop P theta mu_long_term diffusion dt is_antithetic steps next_price rng'

/-- `generate_mean_reversion_path` (`core_sim.rs` lines 225–262). -/
def generate_mean_reversion_path (P : Prim R S)
    (init_price theta mu_long_term sigma : R) (steps : Nat) (dt : R)
    (is_antithetic : Bool) (rng : S) : List R :=
  let diffusion := sigma * P.sqrt dt
  init_price ::
    meanReversionLoop P theta mu_long_term diffusion dt is_antithetic steps init_price rng

/-- The inner jump loop of `generate_jump_diffusion_path` (`core_sim.rs`
lines 304–308): `num_jumps` draws from `Normal(mu_j, sigma_j)`
accumulated left to right into `jump_effect`. -/
def jumpSumLoop (P : Prim R S) (mu_j sigma_j : R) : Nat → R → S → R × S
  | 0, jump_effect, rng => (jump_effect, rng)
  | n + 1, jump_effect, rng =>
    let (jump_size, rng') := P.sampleNormal mu_j sigma_j rng
    jumpSumLoop P mu_j sigma_j n (jump_effect + jump_size) rng'

/-- The per-step loop of `generate_jump_diffusion_path` (`core_sim.rs`
lines 291–316). -/
def jumpDiffusionLoop (P : Prim R S) (drift diffusion dt lambda mu_j sigma_j : R)
    (is_antithetic : Bool) : Nat → R → S → List R
  | 0, _, _ => []
  | steps + 1, current_price, rng =>
    let (z0, rng') := P.sampleStdNormal rng
    let z := if is_antithetic then -z0 else z0
    let gbm_return := drift + diffusion * z
    let (num_jumps, rng'') := P.samplePoisson (lambda * dt) rng'
    let (jump_effect, rng3) := jumpSumLoop P mu_j sigma_j num_jumps (0.0 : R) rng''
    let total_return := gbm_return + jump_effect
    let next_price := current_price * P.exp total_return
    next_price ::
      jumpDiffusionLoop P drift diffusion dt lambda mu_j sigma_j is_antithetic steps next_price rng3

/-- `generate_jump_diffusion_path` (`core_sim.rs` lines 265–319). -/
def generate_jump_diffusion_path (P : Prim R S)
    (init_price mu sigma lambda mu_j sigma_j : R) (steps : Nat) (dt : R)
    (is_antithetic : Bool) (rng : S) : List R :=
  let drift := (mu - (0.5 : R) * P.powi sigma 2) * dt
  let diffusion := sigma * P.sqrt dt
  init_price ::
    jumpDiffusionLoop P drift diffusion dt lambda mu_j sigma_j is_antithetic steps init_price rng

/-- The initial conditional variance of `generate_garch_path`
(`core_sim.rs` lines 337–341): the unconditional variance when
stationary, `omega / 0.1` otherwise.  No floor is applied to it. -/
def garchInitVariance (P : Prim R S) (omega alpha beta : R) : R :=
  if P.ltb (alpha + beta) (1.0 : R) then omega / ((1.0 : R) - alpha - beta)
  else omega / (0.1 : R)

/-- The per-step loop of `generate_garch_path` (`core_sim.rs` lines
346–370).  Each produced pair is `(pushed price, conditional variance in
force at that step)`; the variance for the next step is updated as
`ω + α·r²_t + β·σ²_t` and then floored with `.max(1e-6)`. -/
def garchLoop (P : Prim R S) (omega alpha beta dt : R) (is_antithetic : Bool) :
    Nat → R → R → R → S → List (R × R)
  | 0, _, _, _, _ => []
  | steps + 1, current_price, variance, prev_return, rng =>
    let (e0, rng') := P.sampleStdNormal rng
    let epsilon := if is_antithetic then -e0 else e0
    let volatility := P.sqrt variance
    let return_t := volatility * epsilon * P.sqrt dt
    let next_price := current_price * P.exp return_t
    let variance' := P.fmax (omega + alpha * P.powi prev_return 2 + beta * variance) (1e-6 : R)
    (next_price, variance) ::
      garchLoop P omega alpha beta dt is_antithetic steps next_price variance' return_t rng'

/-- `generate_garch_path` (`core_sim.rs` lines 322–373): the price
component of the GARCH loop, headed by the initial price. -/
def generate_garch_path (P : Prim R S) (init_price omega alpha beta : R)
    (steps : Nat) (dt : R) (is_antithetic : Bool) (rng : S) : List R :=
  init_price ::
    (garchLoop P omega alpha beta dt is_antithetic steps init_price
      (garchInitVariance P omega alpha beta) (0.0 : R) rng).map Prod.fst

/-- The sequence of conditional variances `generate_garch_path` reads to
draw each step's return (the value of `variance` at line 354 of
`core_sim.rs`, just before `volatility = variance.sqrt()`); entry `t` is
the variance in force at step `t`. -/
def garchVariancesUsed (P : Prim R S) (init_price omega alpha beta : R)
    (steps : Nat) (dt : R) (is_antithetic : Bool) (rng : S) : List R :=
  (garchLoop P omega alpha beta dt is_antithetic steps init_price
    (garchInitVariance P omega alpha beta) (0.0 : R) rng).map Prod.snd

/-- `calculate_statistics` (`core_sim.rs` lines 170–196).  The statrs
`Data` copies (`to_vec`) mean the input slice is never reordered, so the
returns at lines 186–188 are computed from exactly the prices the mean,
median and percentiles saw; `percentile` is a pure function of the
multiset, which absorbs statrs's internal in-place reordering. -/
def calculate_statistics (P : Prim R S) (terminal_prices : List R) (model : String)
    (paths horizon : Nat) (init_price : R) : Except String (SimStats R) :=
  if terminal_prices.isEmpty then
    Except.error "No terminal prcies to analyze"
  else
    let mean := P.dataMean terminal_prices
    let std_dev := P.dataStdDev terminal_prices
    let median := P.dataMedian terminal_prices
    let p5 := P.percentile terminal_prices 5
    let p25 := P.percentile terminal_prices 25
    let p75 := P.percentile terminal_prices 75
    let p95 := P.percentile terminal_prices 95
    let returns := terminal_prices.map (fun price => (price - init_price) / init_price)
    let p5_return := P.percentile returns 5
    let var95 := -p5_return
    Except.ok { model := model, paths := paths, horizon := horizon, mean := mean,
                std_dev := std_dev, median := median, p5 := p5, p25 := p25,
                p75 := p75, p95 := p95, var95 := var95 }

/-- The per-path derived seed: line 68 of `core_sim.rs`,
`(params.seed as u64).wrapping_add(i as u64)`.  It does not depend on
`use_antithetic`. -/
def pathSeed (params : SimParams R) (i : Nat) : Nat :=
  (params.seed + i) % 2 ^ 64

/-- Modelled from the spec (§4.3): the seed derivation the specification
prescribes — `seed + i` without antithetic variates, `seed + i/2` shared
within a pair with them.  Stated only to compare against `pathSeed`, the
derivation the code performs. -/
def specDerivedSeed (params : SimParams R) (i : Nat) : Nat :=
  if params.use_antithetic then (params.seed + i / 2) % 2 ^ 64
  else (params.seed + i) % 2 ^ 64

/-- Lines 61–65 of `core_sim.rs`: the model label propagated into the
returned statistics. -/
def model_nameOf (model_type : String) : String :=
  match model_type with
  | "GBM" => "GBM"
  | "Bootstrap" => "Bootstrap"
  | _ => ""

/-- The body of the parallel closure at lines 67–95 of `core_sim.rs`:
the price path produced for index `i`, from an RNG freshly seeded with
`pathSeed params i`. -/
def pathFor (P : Prim R S) (params : SimParams R) (hist_log_returns : List R)
    (i : Nat) : List R :=
  let seed := pathSeed params i
  let rng := P.mkRng seed
  match params.model_type with
  | "GBM" =>
    generate_gbm_path P params.initial_price params.mu params.sigma params.horizon
      params.dt (params.use_antithetic && decide (i % 2 = 1)) rng
  | "Bootstrap" =>
    generate_bootstrap_path P params.initial_price params.horizon hist_log_returns rng
  | "MeanReversion" =>
    generate_mean_reversion_path P params.initial_price params.theta
      params.mu_long_term params.sigma params.horizon params.dt
      (params.use_antithetic && decide (i % 2 = 1)) rng
  | "JumpDiffusion" =>
    generate_jump_diffusion_path P params.initial_price params.mu params.sigma
      params.lambda params.mu_j params.sigma_j params.horizon params.dt
      (params.use_antithetic && decide (i % 2 = 1)) rng
  | "GARCH" =>
    generate_garch_path P params.initial_price params.omega params.alpha params.beta
      params.horizon params.dt (params.use_antithetic && decide (i % 2 = 1)) rng
  | _ => []

/-- Lines 101–105 of `core_sim.rs`: the `mu_long_term_value` binding
passed to the path chart. -/
def muLongTermValueOf (params : SimParams R) : Option R :=
  if params.model_type = "MeanReversion" then some params.mu_long_term else none

/-- Lines 98–114 of `core_sim.rs`: everything `run_simulation` does after
the parallel collect — terminal-price extraction (`path.last().unwrap()`,
which panics on an empty path), the statistics, and the two charts. -/
def runWithPaths (P : Prim R S) (params : SimParams R) (paths : List (List R)) :
    Outcome String (SimStats R × PlotOut × PlotOut) :=
  match paths.mapM List.getLast? with
  | none => Outcome.panicked
  | some terminal_prices =>
    match calculate_statistics P terminal_prices (model_nameOf params.model_type)
        params.num_paths params.horizon params.initial_price with
    | Except.error e => Outcome.error e
    | Except.ok stats =>
      match P.plotPricePaths paths params.model_type (muLongTermValueOf params) with
      | Except.error e => Outcome.error e
      | Except.ok paths_png =>
        match P.plotHistogram terminal_prices 100 with
        | Except.error e => Outcome.error e
        | Except.ok hist_png => Outcome.ok (stats, paths_png, hist_png)

/-- `run_simulation` (`core_sim.rs` lines 54–115).  The rayon
`into_par_iter().map(..).collect()` is order-preserving by index, so the
collected ensemble is the index-ordered list of per-index paths. -/
def run_simulation (P : Prim R S) (params : SimParams R)
    (hist_log_returns : List R) : Outcome String (SimStats R × PlotOut × PlotOut) :=
  runWithPaths P params
    ((List.range params.num_paths).map (pathFor P params hist_log_returns))

/-- One slot per path index; a rayon worker that finishes task `i`
stores its result at slot `i`.  `order` is the order in which tasks
complete across the worker pool. -/
def assemble {α : Type} (f : Nat → α) (n : Nat) (order : List Nat) : List (Option α) :=
  order.foldl (fun slots i => slots.set i (some (f i))) (List.replicate n none)

/-- `run_simulation` under an explicit parallel schedule: tasks run in
completion order `order` and each places its path at its own index. -/
def run_simulation_sched (P : Prim R S) (params : SimParams R)
    (hist_log_returns : List R) (order : List Nat) :
    Outcome String (SimStats R × PlotOut × PlotOut) :=
  runWithPaths P params
    ((assemble (pathFor P params hist_log_returns) params.num_paths order).map
      (fun o => o.getD []))

/-- A historical record from `data_io.rs` (`StockRecord`).  Only the
`ticker` and `close` fields are read by the portfolio builder; the date
and the other OHLCV fields never flow into any modelled computation and
are omitted. -/
structure StockRecord (R : Type) where
  ticker : String
  close : R

/-- `PortfolioAsset` of `porfolio.rs` (lines 7–14). -/
structure PortfolioAsset (R : Type) where
  ticker : String
  shares : R
  mu : R
  sigma : R
  last_price : R

/-- `PortfolioConfig` of `porfolio.rs` (lines 16–21); the `DMatrix`
Cholesky factor is held as its list of rows. -/
structure PortfolioConfig (R : Type) where
  assets : List (PortfolioAsset R)
  cholesky_l : List (List R)
  init_value : R

/-- Rust's `usize::MAX`, the sentinel initial value of `min_len`. -/
def USIZE_MAX : Nat := 2 ^ 64 - 1

/-- Sum of a list of scalars, as Rust's `iter().sum::<f64>()` (a left
fold from `0.0`). -/
def listSum (xs : List R) : R := xs.foldl (fun a b => a + b) (0.0 : R)

/-- The first loop of `build_portfolio_config` (`porfolio.rs` lines
31–41): validate every requested ticker and accumulate
`min_len = min(records.len() - 1)`, starting from `usize::MAX`. -/
def scanMinLen (dataMap : String → Option (List (StockRecord R))) :
    List (String × R) → Nat → Except String Nat
  | [], min_len => Except.ok min_len
  | (ticker, _) :: rest, min_len =>
    match dataMap ticker with
    | some records =>
      if records.length < 30 then
        Except.error ("Ticker " ++ ticker ++ " has insufficient data (<30 records)")
      else scanMinLen dataMap rest (min min_len (records.length - 1))
    | none => Except.error ("Ticker " ++ ticker ++ " not found in loaded data")

/-- Lines 51–55 of `porfolio.rs`: log-returns over `windows(2)` of the
records, `ln(close[t+1] / close[t])`. -/
def logReturnsOf (P : Prim R S) (records : List (StockRecord R)) : List R :=
  List.zipWith (fun w0 w1 => P.ln (w1.close / w0.close)) records (records.drop 1)

/-- Lines 57–58 of `porfolio.rs`: keep the most recent `min_len`
log-returns (`log_returns[start_idx..]`). -/
def alignedReturnsOf (P : Prim R S) (records : List (StockRecord R))
    (min_len : Nat) : List R :=
  let log_returns := logReturnsOf P records
  log_returns.drop (log_returns.length - min_len)

/-- The per-ticker body of the second loop of `build_portfolio_config`
(`porfolio.rs` lines 48–78).  `records.last().unwrap()` is safe there
(every ticker passed the ≥30-records check); the `Option.elim` default
is unreachable on those inputs. -/
def assetOf (P : Prim R S) (total_capital : R) (ticker : String) (weight_pct : R)
    (records : List (StockRecord R)) (min_len : Nat) : PortfolioAsset R :=
  let aligned_returns := alignedReturnsOf P records min_len
  let count : R := (aligned_returns.length : R)
  let mean := listSum aligned_returns / count
  let variance :=
    listSum (aligned_returns.map (fun x => P.powi (x - mean) 2)) / (count - (1.0 : R))
  let last_price := records.getLast?.elim (0.0 : R) (fun r => r.close)
  let alloc_capital := total_capital * (weight_pct / (100.0 : R))
  let shares := alloc_capital / last_price
  { ticker := ticker, shares := shares, mu := mean, sigma := P.sqrt variance,
    last_price := last_price }

/-- `calculate_pair_correlation` (`porfolio.rs` lines 99–118).  The Rust
loop indexes `y[i]` for `i < x.len()`; on the equal-length series it is
called with, that is the fold over `x.zip y` below. -/
def calculate_pair_correlation (P : Prim R S) (x y : List R) : R :=
  let n : R := (x.length : R)
  let mean_x := listSum x / n
  let mean_y := listSum y / n
  let acc := (x.zip y).foldl
    (fun acc p =>
      let dx := p.1 - mean_x
      let dy := p.2 - mean_y
      (acc.1 + dx * dy, acc.2.1 + dx * dx, acc.2.2 + dy * dy))
    ((0.0 : R), (0.0 : R), (0.0 : R))
  if P.eqb acc.2.1 (0.0 : R) || P.eqb acc.2.2 (0.0 : R) then (0.0 : R)
  else acc.1 / (P.sqrt acc.2.1 * P.sqrt acc.2.2)

/-- The correlation matrix of `build_portfolio_config` (`porfolio.rs`
lines 80–89): start from the identity and fill each off-diagonal pair
`(i,j)`, `i < j`, with one shared pairwise correlation.  Entry `(i,j)`
with `i ≠ j` therefore holds `corr(aligned[min i j], aligned[max i j])`
and the diagonal holds `1.0`. -/
def correlationMatrixOf (P : Prim R S) (aligned : List (List R)) : List (List R) :=
  let n := aligned.length
  (List.range n).map (fun i =>
    (List.range n).map (fun j =>
      if i = j then (1.0 : R)
      else calculate_pair_correlation P (aligned.getD (min i j) [])
        (aligned.getD (max i j) [])))

/-- Dot product of two rows (a fold from `0.0` over pointwise
products). -/
def dotProd (xs ys : List R) : R :=
  (List.zipWith (fun a b => a * b) xs ys).foldl (fun a b => a + b) (0.0 : R)

/-- Modelled from the spec (§4.5 step 5, §9): one row of the standard
lower-triangular Cholesky factorization performed by
`nalgebra::Cholesky`, which is an external crate and not under `src/`.
Given the previously computed rows, produce row `j`: below-diagonal
entries `(A[j][k] − Σ L[j][m]·L[k][m]) / L[k][k]`, then the diagonal
`sqrt(A[j][j] − Σ L[j][m]²)`, failing when the radicand is not
positive. -/
def cholRowGo (P : Prim R S) :
    List (List R) → List R → List R → Option (List R)
  | [], arow, acc =>
    match arow with
    | [] => none
    | d :: _ =>
      let rad := d - dotProd acc acc
      if P.ltb (0.0 : R) rad then some (acc ++ [P.sqrt rad]) else none
  | lrow :: lrest, arow, acc =>
    match arow with
    | [] => none
    | a :: arest =>
      let k := acc.length
      let entry := (a - dotProd acc (lrow.take k)) / lrow.getD k (0.0 : R)
      cholRowGo P lrest arest (acc ++ [entry])

/-- Modelled from the spec (§4.5 step 5): the rows of the Cholesky
factor, built row by row. -/
def choleskyRows (P : Prim R S) (A : List (List R)) : Option (List (List R)) :=
  A.foldl
    (fun acc arow =>
      match acc with
      | none => none
      | some rows =>
        match cholRowGo P rows arow [] with
        | none => none
        | some r => some (rows ++ [r]))
    (some [])

/-- Modelled from the spec (§4.5 step 5, §9): `nalgebra`'s
`correlation_matrix.cholesky().l()` — `some` lower-triangular factor
(rows padded with zeros above the diagonal) on success, `none` on a
non-positive-definite input. -/
def cholesky (P : Prim R S) (A : List (List R)) : Option (List (List R)) :=
  (choleskyRows P A).map
    (fun rows => rows.map (fun r => r ++ List.replicate (A.length - r.length) (0.0 : R)))

/-- `build_portfolio_config` (`porfolio.rs` lines 23–97).  The Rust
second loop pushes each ticker's asset and aligned return series in one
pass; the two index-aligned maps below build the same two lists.
`data_map.get(ticker).unwrap()` cannot fail after the first loop; the
`getD []` default is unreachable on those inputs. -/
def build_portfolio_config (P : Prim R S) (ticker_weights : List (String × R))
    (total_capital : R) (dataMap : String → Option (List (StockRecord R))) :
    Except String (PortfolioConfig R) :=
  match scanMinLen dataMap ticker_weights USIZE_MAX with
  | Except.error e => Except.error e
  | Except.ok min_len =>
    if min_len = USIZE_MAX then
      Except.error "No valid data found for selected tickers"
    else
      let assets := ticker_weights.map (fun tw =>
        assetOf P total_capital tw.1 tw.2 ((dataMap tw.1).getD []) min_len)
      let aligned_log_returns := ticker_weights.map (fun tw =>
        alignedReturnsOf P ((dataMap tw.1).getD []) min_len)
      let correlation_matrix := correlationMatrixOf P aligned_log_returns
      match cholesky P correlation_matrix with
      | some cholesky_l =>
        Except.ok { assets := assets, cholesky_l := cholesky_l,
                    init_value := total_capital }
      | none =>
        Except.error
          "Correlation matrix is not positive definite. Check for duplicate assets or insufficient data."

/-- A concrete, fully computable interpretation of the primitive
operations over `ℚ` with a counter as RNG state.  It exists to witness
that the hypotheses of the theorems below are satisfiable; it does not
claim to reproduce `f64` transcendentals. -/
def ratPrim : Prim ℚ Nat where
  exp := fun x => x + 1
  sqrt := id
  ln := id
  powi := fun x n => x ^ n
  ltb := fun a b => decide (a < b)
  eqb := fun a b => decide (a = b)
  fmax := max
  mkRng := id
  sampleStdNormal := fun s => ((s : ℚ), s + 1)
  sampleNormal := fun m sd s => (m + sd * (s : ℚ), s + 1)
  samplePoisson := fun _ s => (s % 3, s + 1)
  randomRange := fun n s => (s % n, s + 1)
  dataMean := fun l => listSum l
  dataStdDev := fun _ => 0
  dataMedian := fun l => listSum l + 1
  percentile := fun l p => listSum l + (p : ℚ)
  plotPricePaths := fun _ _ _ => Except.ok ([], 800, 600)
  plotHistogram := fun _ _ => Except.ok ([], 800, 600)

/-- A concrete GBM request used by the witnesses. -/
def gbmTestParams : SimParams ℚ where
  initial_price := 100
  mu := 0
  sigma := 1
  horizon := 2
  num_paths := 2
  dt := 1
  seed := 0
  use_antithetic := false
  model_type := "GBM"
  theta := 0
  mu_long_term := 0
  lambda := 0
  mu_j := 0
  sigma_j := 0
  omega := 0
  alpha := 0
  beta := 0

/-- The antithetic variant of the test request (base seed 0). -/
def antiTestParams : SimParams ℚ :=
  { gbmTestParams with use_antithetic := true }

/-- A request with a model label none of the five generators match. -/
def unknownTestParams : SimParams ℚ :=
  { gbmTestParams with model_type := "Foo", num_paths := 1 }

/-- Thirty identical records for one ticker, for the portfolio
witnesses. -/
def testRecords : List (StockRecord ℚ) :=
  List.replicate 30 { ticker := "A", close := 1 }

/-- A data map holding exactly the ticker `"A"`. -/
def testDataMap : String → Option (List (StockRecord ℚ)) :=
  fun s => if s = "A" then some testRecords else none

/-- A data map holding no ticker at all. -/
def emptyDataMap : String → Option (List (StockRecord ℚ)) :=
  fun _ => none

/-- The `model` field of a successful simulation outcome, `none` on
panic or error. -/
def statsModelOf {ε α β : Type} (o : Outcome ε (SimStats α × β)) : Option String :=
  match o with
  | .ok (s, _) => some s.model
  | _ => none

/-- `true` precisely on `Except.ok`. -/
def exceptIsOk {ε α : Type} : Except ε α → Bool
  | .ok _ => true
  | .error _ => false

/-- Ticker `t` makes the first loop of `build_portfolio_config` fail:
it is absent from the data map, or present with fewer than 30
records. -/
def tickerBad (dataMap : String → Option (List (StockRecord R))) (t : String) : Prop :=
  match dataMap t with
  | none => True
  | some records => records.length < 30

theorem gbmLoop_length (P : Prim R S) (d df : R) (a : Bool) :
    ∀ (n : Nat) (c : R) (rng : S), (gbmLoop P d df a n c rng).length = n := by
  intro n
  induction n with
  | zero => intro c rng; rfl
  | succ k ih => intro c rng; simp [gbmLoop, ih]

theorem bootstrapLoop_length (P : Prim R S) (lr : List R) :
    ∀ (n : Nat) (c : R) (rng : S), (bootstrapLoop P lr n c rng).length = n := by
  intro n
  induction n with
  | zero => intro c rng; rfl
  | succ k ih => intro c rng; simp [bootstrapLoop, ih]

theorem meanReversionLoop_length (P : Prim R S) (th ml df dt : R) (a : Bool) :
    ∀ (n : Nat) (c : R) (rng : S), (meanReversionLoop P th ml df dt a n c rng).length = n := by
  intro n
  induction n with
  | zero => intro c rng; rfl
  | succ k ih => intro c rng; simp [meanReversionLoop, ih]

theorem jumpDiffusionLoop_length (P : Prim R S) (d df dt l mj sj : R) (a : Bool) :
    ∀ (n : Nat) (c : R) (rng : S),
      (jumpDiffusionLoop P d df dt l mj sj a n c rng).length = n := by
  intro n
  induction n with
  | zero => intro c rng; rfl
  | succ k ih => intro c rng; simp [jumpDiffusionLoop, ih]

theorem garchLoop_length (P : Prim R S) (om al be dt : R) (a : Bool) :
    ∀ (n : Nat) (c v pr : R) (rng : S), (garchLoop P om al be dt a n c v pr rng).length = n := by
  intro n
  induction n with
  | zero => intro c v pr rng; rfl
  | succ k ih => intro c v pr rng; simp [garchLoop, ih]

/-- C8: with an empty historical log-return sequence, the Bootstrap
generator returns the flat path `replicate (steps+1) init_price` — it
does not fail or index out of bounds. -/
theorem c8_bootstrap_empty_flat (P : Prim R S) (init_price : R) (steps : Nat) (rng : S) :
    generate_bootstrap_path P init_price steps ([] : List R) rng =
      List.replicate (steps + 1) init_price := rfl

/-- C2: at base seed 0 with antithetic variates enabled, the code derives
path 1's RNG seed as 1 (`seed + i`, line 68 of `core_sim.rs`, identical
in both modes), whereas the claimed shared pair seed `seed + i/2` is 0;
the two members of pair 0 therefore use different seeds. -/
theorem c2_pair_seeds_differ :
    pathSeed antiTestParams 1 = 1 ∧ specDerivedSeed antiTestParams 1 = 0 ∧
      pathSeed antiTestParams 1 ≠ pathSeed antiTestParams 0 := by
  refine ⟨rfl, rfl, ?_⟩
  decide

/-- C4: on the unrecognized model label `"Foo"` with one path,
`run_simulation` panics (`path.last().unwrap()` on the empty path the
unknown-model arm produced) instead of returning a typed error. -/
theorem c4_unknown_model_panics :
    run_simulation ratPrim unknownTestParams [] = Outcome.panicked := rfl

/-- C6 counterexample: with `ω = 1e-9`, `α = β = 0` (parameters the
generator accepts, and which even satisfy `validate_config`), the
conditional variance used at the first step of a GARCH path is the
unfloored initial variance `1e-9/(1-0-0) = 1e-9 < 1e-6`: it is not true
that every variance used, the initial one included, stays at or above
the `1e-6` floor. -/
theorem c6_floor_counterexample :
    ¬ ∀ v ∈ garchVariancesUsed ratPrim 100 (1e-9) 0 0 1 1 false 0, (1e-6 : ℚ) ≤ v := by
  have hinit : garchInitVariance ratPrim (1e-9 : ℚ) 0 0 = 1e-9 := by
    unfold garchInitVariance
    norm_num [ratPrim]
  have hlist : garchVariancesUsed ratPrim 100 (1e-9) 0 0 1 1 false 0 = [(1e-9 : ℚ)] := by
    simp [garchVariancesUsed, garchLoop, hinit]
  intro h
  have hv := h (1e-9 : ℚ) (by rw [hlist]; exact List.mem_singleton.mpr rfl)
  norm_num at hv

theorem garchLoop_snd_floored {R : Type} [LinearOrder R]
    [Add R] [Sub R] [Mul R] [Div R] [Neg R] [OfScientific R] [NatCast R] {S : Type}
    (P : Prim R S) (hmax : ∀ a b : R, P.fmax a b = max a b) (om al be dt : R) (a : Bool) :
    ∀ (n : Nat) (c v pr : R) (rng : S),
      ∀ x ∈ (garchLoop P om al be dt a n c v pr rng).map Prod.snd,
        x = v ∨ (1e-6 : R) ≤ x := by
  intro n
  induction n with
  | zero => intro c v pr rng x hx; simp [garchLoop] at hx
  | succ k ih =>
    intro c v pr rng x hx
    simp only [garchLoop, List.map_cons, List.mem_cons] at hx
    rcases hx with hx | hx
    · exact Or.inl hx
    · rcases ih _ _ _ _ x hx with hx' | hx'
      · refine Or.inr ?_
        rw [hx', hmax]
        exact le_max_right _ _
      · exact Or.inr hx'

/-- C6 amended: for every generated GARCH path, the conditional variance
used at every step after the first is at least the configured `1e-6`
floor (each is produced by `.max(1e-6)`); the initial variance, used at
the first step, is `ω/(1-α-β)` (or `ω/0.1` when `α+β ≥ 1`) and is not
floored, so it can lie below `1e-6`. -/
theorem c6_variances_after_first_floored {R : Type} [LinearOrder R]
    [Add R] [Sub R] [Mul R] [Div R] [Neg R] [OfScientific R] [NatCast R] {S : Type}
    (P : Prim R S) (hmax : ∀ a b : R, P.fmax a b = max a b)
    (init_price omega alpha beta : R) (steps : Nat) (dt : R) (anti : Bool) (rng : S) :
    ∀ v ∈ (garchVariancesUsed P init_price omega alpha beta steps dt anti rng).drop 1,
      (1e-6 : R) ≤ v := by
  intro v hv
  unfold garchVariancesUsed at hv
  cases steps with
  | zero => simp [garchLoop] at hv
  | succ k =>
    simp only [garchLoop, List.map_cons, List.drop_succ_cons, List.drop_zero] at hv
    rcases garchLoop_snd_floored P hmax omega alpha beta dt
        (anti) k _ _ _ _ v hv with h | h
    · rw [h, hmax]
      exact le_max_right _ _
    · exact h

/-- Witness for C6's amended theorem: the `ℚ` interpretation satisfies
the `fmax = max` hypothesis, and the floor holds on a concrete
three-step GARCH run. -/
theorem c6_amended_witness :
    (∀ a b : ℚ, ratPrim.fmax a b = max a b) ∧
      ∀ v ∈ (garchVariancesUsed ratPrim 100 (1e-9) 0 0 3 1 false 0).drop 1,
        (1e-6 : ℚ) ≤ v :=
  ⟨fun _ _ => rfl,
    c6_variances_after_first_floored ratPrim (fun _ _ => rfl) 100 (1e-9) 0 0 3 1 false 0⟩

theorem pathFor_eq_gbm (P : Prim R S) (params : SimParams R) (hist : List R) (i : Nat)
    (h : params.model_type = "GBM") :
    pathFor P params hist i =
      generate_gbm_path P params.initial_price params.mu params.sigma params.horizon
        params.dt (params.use_antithetic && decide (i % 2 = 1))
        (P.mkRng (pathSeed params i)) := by
  unfold pathFor
  rw [h]
  rfl

theorem pathFor_eq_bootstrap (P : Prim R S) (params : SimParams R) (hist : List R) (i : Nat)
    (h : params.model_type = "Bootstrap") :
    pathFor P params hist i =
      generate_bootstrap_path P params.initial_price params.horizon hist
        (P.mkRng (pathSeed params i)) := by
  unfold pathFor
  rw [h]
  rfl

theorem pathFor_eq_mean_reversion (P : Prim R S) (params : SimParams R) (hist : List R)
    (i : Nat) (h : params.model_type = "MeanReversion") :
    pathFor P params hist i =
      generate_mean_reversion_path P params.initial_price params.theta
        params.mu_long_term params.sigma params.horizon params.dt
        (params.use_antithetic && decide (i % 2 = 1)) (P.mkRng (pathSeed params i)) := by
  unfold pathFor
  rw [h]
  rfl

theorem pathFor_eq_jump_diffusion (P : Prim R S) (params : SimParams R) (hist : List R)
    (i : Nat) (h : params.model_type = "JumpDiffusion") :
    pathFor P params hist i =
      generate_jump_diffusion_path P params.initial_price params.mu params.sigma
        params.lambda params.mu_j params.sigma_j params.horizon params.dt
        (params.use_antithetic && decide (i % 2 = 1)) (P.mkRng (pathSeed params i)) := by
  unfold pathFor
  rw [h]
  rfl

theorem pathFor_eq_garch (P : Prim R S) (params : SimParams R) (hist : List R) (i : Nat)
    (h : params.model_type = "GARCH") :
    pathFor P params hist i =
      generate_garch_path P params.initial_price params.omega params.alpha params.beta
        params.horizon params.dt (params.use_antithetic && decide (i % 2 = 1))
        (P.mkRng (pathSeed params i)) := by
  unfold pathFor
  rw [h]
  rfl

theorem pathFor_eq_empty (P : Prim R S) (params : SimParams R) (hist : List R) (i : Nat)
    (h1 : params.model_type ≠ "GBM") (h2 : params.model_type ≠ "Bootstrap")
    (h3 : params.model_type ≠ "MeanReversion") (h4 : params.model_type ≠ "JumpDiffusion")
    (h5 : params.model_type ≠ "GARCH") :
    pathFor P params hist i = [] := by
  unfold pathFor
  split <;> simp_all

/-- C3: on every recognized model label, the generated path for any index
has exactly `horizon + 1` elements and starts at `initial_price`. -/
theorem c3_path_shape (P : Prim R S) (params : SimParams R) (hist : List R)
    (hm : params.model_type ∈ ["GBM", "Bootstrap", "MeanReversion", "JumpDiffusion", "GARCH"])
    (i : Nat) :
    (pathFor P params hist i).length = params.horizon + 1 ∧
      (pathFor P params hist i).head? = some params.initial_price := by
  simp only [List.mem_cons, List.not_mem_nil, or_false] at hm
  rcases hm with h | h | h | h | h
  · rw [pathFor_eq_gbm P params hist i h]
    unfold generate_gbm_path
    exact ⟨by simp [gbmLoop_length], rfl⟩
  · rw [pathFor_eq_bootstrap P params hist i h]
    unfold generate_bootstrap_path
    by_cases he : hist.isEmpty
    · simp [he, List.replicate_succ]
    · simp [he, bootstrapLoop_length]
  · rw [pathFor_eq_mean_reversion P params hist i h]
    unfold generate_mean_reversion_path
    exact ⟨by simp [meanReversionLoop_length], rfl⟩
  · rw [pathFor_eq_jump_diffusion P params hist i h]
    unfold generate_jump_diffusion_path
    exact ⟨by simp [jumpDiffusionLoop_length], rfl⟩
  · rw [pathFor_eq_garch P params hist i h]
    unfold generate_garch_path
    exact ⟨by simp [garchLoop_length], rfl⟩

/-- Witness for C3 at a concrete GBM request and path index 0. -/
theorem c3_witness :
    gbmTestParams.model_type ∈ ["GBM", "Bootstrap", "MeanReversion", "JumpDiffusion", "GARCH"] ∧
      ((pathFor ratPrim gbmTestParams [] 0).length = gbmTestParams.horizon + 1 ∧
        (pathFor ratPrim gbmTestParams [] 0).head? = some gbmTestParams.initial_price) :=
  ⟨by decide, c3_path_shape ratPrim gbmTestParams [] (by decide) 0⟩

/-- C5: on a non-empty terminal-price list the statistics record is
produced, its `var95` is the negated 5th percentile of the simple
returns `(price − init_price)/init_price` taken over exactly the
terminal prices its `mean` and `median` are computed from. -/
theorem c5_var95_consistent (P : Prim R S) (terminal_prices : List R) (model : String)
    (paths horizon : Nat) (init_price : R) (h : terminal_prices ≠ []) :
    calculate_statistics P terminal_prices model paths horizon init_price =
      Except.ok
        { model := model, paths := paths, horizon := horizon,
          mean := P.dataMean terminal_prices,
          std_dev := P.dataStdDev terminal_prices,
          median := P.dataMedian terminal_prices,
          p5 := P.percentile terminal_prices 5,
          p25 := P.percentile terminal_prices 25,
          p75 := P.percentile terminal_prices 75,
          p95 := P.percentile terminal_prices 95,
          var95 :=
            -(P.percentile
                (terminal_prices.map (fun price => (price - init_price) / init_price)) 5) } := by
  have hne : terminal_prices.isEmpty = false := by
    cases terminal_prices with
    | nil => exact absurd rfl h
    | cons a l => rfl
  simp [calculate_statistics, hne]

/-- Witness for C5 on the one-element terminal list `[100]`. -/
theorem c5_witness :
    ([(100 : ℚ)] ≠ []) ∧
      calculate_statistics ratPrim [(100 : ℚ)] "GBM" 1 2 (100 : ℚ) =
        Except.ok
          { model := "GBM", paths := 1, horizon := 2,
            mean := ratPrim.dataMean [(100 : ℚ)],
            std_dev := ratPrim.dataStdDev [(100 : ℚ)],
            median := ratPrim.dataMedian [(100 : ℚ)],
            p5 := ratPrim.percentile [(100 : ℚ)] 5,
            p25 := ratPrim.percentile [(100 : ℚ)] 25,
            p75 := ratPrim.percentile [(100 : ℚ)] 75,
            p95 := ratPrim.percentile [(100 : ℚ)] 95,
            var95 :=
              -(ratPrim.percentile
                  ([(100 : ℚ)].map (fun price => (price - 100) / 100)) 5) } :=
  ⟨by simp, c5_var95_consistent ratPrim [(100 : ℚ)] "GBM" 1 2 (100 : ℚ) (by simp)⟩

theorem calculate_statistics_ok_model (P : Prim R S) (tp : List R) (m : String)
    (np hz : Nat) (ip : R) (s : SimStats R)
    (h : calculate_statistics P tp m np hz ip = Except.ok s) : s.model = m := by
  by_cases he : tp.isEmpty
  · simp [calculate_statistics, he] at h
  · rw [eq_comm] at h
    simp [calculate_statistics, he] at h
    rw [h]

theorem runWithPaths_ok_model (P : Prim R S) (params : SimParams R)
    (ps : List (List R)) (s : SimStats R) (a b : PlotOut)
    (h : runWithPaths P params ps = Outcome.ok (s, a, b)) :
    s.model = model_nameOf params.model_type := by
  unfold runWithPaths at h
  split at h
  · simp at h
  · split at h
    · simp at h
    · rename_i stats heq
      have hs : s = stats := by
        split at h
        · exact Outcome.noConfusion h
        · split at h
          · exact Outcome.noConfusion h
          · injection h with h'
            exact (congrArg Prod.fst h').symm
      rw [hs]
      exact calculate_statistics_ok_model P _ _ _ _ _ stats heq

theorem run_ok_known (P : Prim R S) (params : SimParams R) (hist : List R)
    (h : (run_simulation P params hist).isOkB = true) :
    params.model_type = "GBM" ∨ params.model_type = "Bootstrap" ∨
      params.model_type = "MeanReversion" ∨ params.model_type = "JumpDiffusion" ∨
      params.model_type = "GARCH" := by
  by_contra hc
  push_neg at hc
  obtain ⟨h1, h2, h3, h4, h5⟩ := hc
  have hp : ∀ i, pathFor P params hist i = [] := fun i =>
    pathFor_eq_empty P params hist i h1 h2 h3 h4 h5
  have hpaths : (List.range params.num_paths).map (pathFor P params hist) =
      List.replicate params.num_paths ([] : List R) := by
    refine List.eq_replicate_iff.mpr ⟨by simp, ?_⟩
    intro bb hb
    rcases List.mem_map.mp hb with ⟨i, _, hi⟩
    rw [← hi, hp i]
  unfold run_simulation at h
  rw [hpaths] at h
  cases hn : params.num_paths with
  | zero =>
    rw [hn] at h
    simp [runWithPaths, List.mapM, List.mapM.loop, calculate_statistics, Outcome.isOkB] at h
  | succ k =>
    rw [hn] at h
    rw [List.replicate_succ] at h
    simp [runWithPaths, List.mapM, List.mapM.loop, List.getLast?, Outcome.isOkB] at h

/-- C10: whenever `run_simulation` succeeds, the `model` field of the
returned statistics equals the requested label exactly when that label
is `"GBM"` or `"Bootstrap"`; on `"MeanReversion"`, `"JumpDiffusion"` and
`"GARCH"` requests the field is the empty string (unknown labels never
produce a successful outcome). -/
theorem c10_model_label (P : Prim R S) (params : SimParams R) (hist : List R)
    (h : (run_simulation P params hist).isOkB = true) :
    (statsModelOf (run_simulation P params hist) = some params.model_type ↔
        (params.model_type = "GBM" ∨ params.model_type = "Bootstrap")) ∧
      ((params.model_type = "MeanReversion" ∨ params.model_type = "JumpDiffusion" ∨
          params.model_type = "GARCH") →
        statsModelOf (run_simulation P params hist) = some "") := by
  obtain ⟨out, hout⟩ : ∃ out, run_simulation P params hist = Outcome.ok out := by
    cases ho : run_simulation P params hist with
    | ok o => exact ⟨o, rfl⟩
    | panicked => rw [ho] at h; simp [Outcome.isOkB] at h
    | error e => rw [ho] at h; simp [Outcome.isOkB] at h
  obtain ⟨s, a, b⟩ := out
  have hmod : s.model = model_nameOf params.model_type :=
    runWithPaths_ok_model P params _ s a b hout
  have hsm : statsModelOf (run_simulation P params hist) = some s.model := by
    rw [hout]; rfl
  have hknown := run_ok_known P params hist h
  rcases hknown with h1 | h1 | h1 | h1 | h1 <;> rw [hsm, hmod, h1] <;> decide

/-- Witness for C10: a concrete successful GBM run. -/
theorem c10_witness :
    (run_simulation ratPrim gbmTestParams []).isOkB = true ∧
      ((statsModelOf (run_simulation ratPrim gbmTestParams []) =
            some gbmTestParams.model_type ↔
          (gbmTestParams.model_type = "GBM" ∨ gbmTestParams.model_type = "Bootstrap")) ∧
        ((gbmTestParams.model_type = "MeanReversion" ∨
            gbmTestParams.model_type = "JumpDiffusion" ∨
            gbmTestParams.model_type = "GARCH") →
          statsModelOf (run_simulation ratPrim gbmTestParams []) = some "")) :=
  ⟨rfl, c10_model_label ratPrim gbmTestParams [] rfl⟩

theorem scanMinLen_bad (dataMap : String → Option (List (StockRecord R))) :
    ∀ (tws : List (String × R)) (acc : Nat),
      (∃ p ∈ tws, tickerBad dataMap p.1) →
      ∃ e, scanMinLen dataMap tws acc = Except.error e := by
  intro tws
  induction tws with
  | nil => intro acc h; simp at h
  | cons tw rest ih =>
    intro acc h
    obtain ⟨p, hp, hbad⟩ := h
    obtain ⟨t, w⟩ := tw
    cases hd : dataMap t with
    | none =>
      exact ⟨"Ticker " ++ t ++ " not found in loaded data", by simp [scanMinLen, hd]⟩
    | some records =>
      by_cases hlt : records.length < 30
      · exact ⟨"Ticker " ++ t ++ " has insufficient data (<30 records)",
          by simp [scanMinLen, hd, hlt]⟩
      · rcases List.mem_cons.mp hp with hpe | hpr
        · exfalso
          rw [hpe] at hbad
          simp only [tickerBad, hd] at hbad
          exact hlt hbad
        · obtain ⟨e, he⟩ := ih (min acc (records.length - 1)) ⟨p, hpr, hbad⟩
          exact ⟨e, by simp [scanMinLen, hd, hlt, he]⟩

/-- C7: if any requested ticker is absent from the data map or has fewer
than 30 historical records, `build_portfolio_config` returns an error
and produces no `PortfolioConfig`. -/
theorem c7_insufficient_data_rejected (P : Prim R S)
    (ticker_weights : List (String × R)) (total_capital : R)
    (dataMap : String → Option (List (StockRecord R)))
    (h : ∃ p ∈ ticker_weights, tickerBad dataMap p.1) :
    exceptIsOk (build_portfolio_config P ticker_weights total_capital dataMap) = false := by
  obtain ⟨e, he⟩ := scanMinLen_bad dataMap ticker_weights USIZE_MAX h
  unfold build_portfolio_config
  rw [he]
  rfl

/-- Witness for C7: one requested ticker, absent from an empty data
map. -/
theorem c7_witness :
    (∃ p ∈ [("A", (1 : ℚ))], tickerBad emptyDataMap p.1) ∧
      exceptIsOk (build_portfolio_config ratPrim [("A", (1 : ℚ))] 100 emptyDataMap) =
        false :=
  ⟨⟨("A", (1 : ℚ)), by simp, trivial⟩,
    c7_insufficient_data_rejected ratPrim [("A", (1 : ℚ))] 100 emptyDataMap
      ⟨("A", (1 : ℚ)), by simp, trivial⟩⟩

/-- C9: for a portfolio of exactly one ticker with at least 30 records
(and a record count representable in `usize`), under the `f64` facts
`1.0 - 0.0 = 1.0`, `0.0 < 1.0` and `sqrt 1.0 = 1.0`, the built 1×1
correlation matrix is `[[1.0]]` and `build_portfolio_config` succeeds
with the 1×1 identity as its Cholesky factor. -/
theorem c9_single_asset_identity (P : Prim R S) (t : String) (w total_capital : R)
    (dataMap : String → Option (List (StockRecord R))) (records : List (StockRecord R))
    (hrec : dataMap t = some records) (hlen : 30 ≤ records.length)
    (hbound : records.length ≤ USIZE_MAX)
    (hsub : (1.0 : R) - (0.0 : R) = (1.0 : R))
    (hlt : P.ltb (0.0 : R) (1.0 : R) = true)
    (hsqrt : P.sqrt (1.0 : R) = (1.0 : R)) :
    (∀ xs : List R, correlationMatrixOf P [xs] = [[(1.0 : R)]]) ∧
      (build_portfolio_config P [(t, w)] total_capital dataMap).map
        (fun c => c.cholesky_l) = Except.ok [[(1.0 : R)]] := by
  have hcorr : ∀ xs : List R, correlationMatrixOf P [xs] = [[(1.0 : R)]] := by
    intro xs
    simp [correlationMatrixOf, List.range_succ]
  refine ⟨hcorr, ?_⟩
  have h0 : dotProd ([] : List R) ([] : List R) = (0.0 : R) := rfl
  have hrow : cholRowGo P ([] : List (List R)) [(1.0 : R)] [] = some [(1.0 : R)] := by
    simp only [cholRowGo]
    rw [h0, hsub, hlt]
    simp [hsqrt]
  have hchol : cholesky P [[(1.0 : R)]] = some [[(1.0 : R)]] := by
    simp [cholesky, choleskyRows, hrow]
  have hscan : scanMinLen dataMap [(t, w)] USIZE_MAX =
      Except.ok (min USIZE_MAX (records.length - 1)) := by
    simp [scanMinLen, hrec, Nat.not_lt.mpr hlen]
  have h1 : records.length - 1 < records.length := Nat.sub_lt (by omega) (by omega)
  have hne : ¬ (min USIZE_MAX (records.length - 1) = USIZE_MAX) := by
    rw [Nat.min_eq_right (le_trans (Nat.sub_le _ _) hbound)]
    exact Nat.ne_of_lt (lt_of_lt_of_le h1 hbound)
  unfold build_portfolio_config
  rw [hscan]
  simp [hne, hrec, hcorr, hchol]
  rfl

/-- Witness for C9: the single ticker `"A"` with 30 records, over the
`ℚ` interpretation. -/
theorem c9_witness :
    testDataMap "A" = some testRecords ∧ 30 ≤ testRecords.length ∧
      testRecords.length ≤ USIZE_MAX ∧ ((1.0 : ℚ) - (0.0 : ℚ) = (1.0 : ℚ)) ∧
      ratPrim.ltb (0.0 : ℚ) (1.0 : ℚ) = true ∧ ratPrim.sqrt (1.0 : ℚ) = (1.0 : ℚ) ∧
      ((∀ xs : List ℚ, correlationMatrixOf ratPrim [xs] = [[(1.0 : ℚ)]]) ∧
        (build_portfolio_config ratPrim [("A", (1 : ℚ))] 100 testDataMap).map
          (fun c => c.cholesky_l) = Except.ok [[(1.0 : ℚ)]]) := by
  have hsub : (1.0 : ℚ) - (0.0 : ℚ) = (1.0 : ℚ) := by norm_num
  have hlt : ratPrim.ltb (0.0 : ℚ) (1.0 : ℚ) = true := by
    simp only [ratPrim, decide_eq_true_eq]
    norm_num
  have hlen : 30 ≤ testRecords.length := by simp [testRecords]
  have hbound : testRecords.length ≤ USIZE_MAX := by
    simp [testRecords, USIZE_MAX]
  exact ⟨rfl, hlen, hbound, hsub, hlt, rfl,
    c9_single_asset_identity ratPrim "A" 1 100 testDataMap testRecords rfl hlen hbound
      hsub hlt rfl⟩

theorem assembleAux_length {α : Type} (f : Nat → α) :
    ∀ (ord : List Nat) (acc : List (Option α)),
      (ord.foldl (fun slots i => slots.set i (some (f i))) acc).length = acc.length := by
  intro ord
  induction ord with
  | nil => intro acc; rfl
  | cons i rest ih => intro acc; simp [List.foldl_cons, ih]

theorem assembleAux_get_not_mem {α : Type} (f : Nat → α) :
    ∀ (ord : List Nat) (acc : List (Option α)) (j : Nat), j ∉ ord →
      (ord.foldl (fun slots i => slots.set i (some (f i))) acc)[j]? = acc[j]? := by
  intro ord
  induction ord with
  | nil => intro acc j _; rfl
  | cons i rest ih =>
    intro acc j h
    have hij : i ≠ j := by
      intro he
      exact h (by simp [he])
    rw [List.foldl_cons, ih _ j (fun hr => h (List.mem_cons_of_mem i hr))]
    exact List.getElem?_set_ne hij

theorem assembleAux_get_mem {α : Type} (f : Nat → α) :
    ∀ (ord : List Nat) (acc : List (Option α)) (j : Nat), j ∈ ord → j < acc.length →
      (ord.foldl (fun slots i => slots.set i (some (f i))) acc)[j]? = some (some (f j)) := by
  intro ord
  induction ord with
  | nil => intro acc j h _; exact absurd h (List.not_mem_nil j)
  | cons i rest ih =>
    intro acc j hj hlt
    rw [List.foldl_cons]
    by_cases hr : j ∈ rest
    · exact ih _ j hr (by rw [List.length_set]; exact hlt)
    · have hij : j = i := by
        rcases List.mem_cons.mp hj with h | h
        · exact h
        · exact absurd h hr
      rw [assembleAux_get_not_mem f rest _ j hr]
      subst hij
      exact List.getElem?_set_eq_of_lt (some (f j)) hlt

/-- Whatever the completion order of the parallel tasks, as long as each
of the `n` tasks completes exactly once, the assembled slots are the
index-ordered results. -/
theorem assemble_eq_map {α : Type} (f : Nat → α) (n : Nat) (ord : List Nat)
    (h : ord.Perm (List.range n)) :
    assemble f n ord = (List.range n).map (fun i => some (f i)) := by
  apply List.ext_getElem?
  intro j
  by_cases hj : j < n
  · have hmem : j ∈ ord := h.mem_iff.mpr (List.mem_range.mpr hj)
    unfold assemble
    rw [assembleAux_get_mem f ord _ j hmem (by simpa using hj)]
    rw [List.getElem?_map, List.getElem?_range hj]
    rfl
  · have h1 : (assemble f n ord).length = n := by
      unfold assemble
      rw [assembleAux_length]
      simp
    rw [List.getElem?_eq_none (by rw [h1]; omega),
      List.getElem?_eq_none (by simp; omega)]

theorem run_simulation_sched_eq (P : Prim R S) (params : SimParams R) (hist : List R)
    (ord : List Nat) (h : ord.Perm (List.range params.num_paths)) :
    run_simulation_sched P params hist ord = run_simulation P params hist := by
  unfold run_simulation_sched run_simulation
  rw [assemble_eq_map _ _ _ h]
  congr 1
  rw [List.map_map]
  rfl

/-- C1: two runs of the simulation with identical inputs return
bit-identical results — statistics included — whatever parallel
completion orders the two runs' worker pools produce. -/
theorem c1_schedule_independent (P : Prim R S) (params : SimParams R) (hist : List R)
    (ord1 ord2 : List Nat) (h1 : ord1.Perm (List.range params.num_paths))
    (h2 : ord2.Perm (List.range params.num_paths)) :
    run_simulation_sched P params hist ord1 = run_simulation_sched P params hist ord2 := by
  rw [run_simulation_sched_eq P params hist ord1 h1,
    run_simulation_sched_eq P params hist ord2 h2]

/-- Witness for C1: the two-path GBM request run under the two possible
completion orders. -/
theorem c1_witness :
    ([1, 0] : List Nat).Perm (List.range gbmTestParams.num_paths) ∧
      ([0, 1] : List Nat).Perm (List.range gbmTestParams.num_paths) ∧
      run_simulation_sched ratPrim gbmTestParams [] [1, 0] =
        run_simulation_sched ratPrim gbmTestParams [] [0, 1] :=
  ⟨by decide, by decide,
    c1_schedule_independent ratPrim gbmTestParams [] [1, 0] [0, 1] (by decide) (by decide)⟩

end MonteCarlo
